import Mathlib

/-!
Verification of the weather-update repository: a shallow embedding of the
Collector (`src/functions/weatherTrigger.js`) and the Aggregator
(the `dailyAggregation` timer handler) over an explicit relational state,
with theorems settling the specification claims.

Machine reals (SQL FLOAT, JS number) are modelled by exact rationals `ℚ`;
SQL `INT` columns by `ℤ`; timestamps by integer milliseconds since an epoch,
with `CONVERT(date, ts)` modelled as floor-division by the milliseconds of
one day.
-/

namespace WeatherUpdate

/-- A row of the `weather_data` table (schema from the INSERT in
`insertWeatherData` plus the auto-increment `id` used by
`resetIdentityQuery`): city, temperature, feels_like (FLOAT → `ℚ`),
pressure, humidity (INT → `ℤ`), weather label, timestamp (DATETIMEOFFSET →
integer milliseconds). -/
structure Obs where
  id : ℤ
  city : String
  temperature : ℚ
  feels_like : ℚ
  pressure : ℤ
  humidity : ℤ
  weather : String
  timestamp : ℤ
deriving DecidableEq

/-- A row of the `daily_weather_summary` table, with the columns listed in
the Aggregator's `aggregationQuery` INSERT. -/
structure Summary where
  city : String
  date : ℤ
  avg_temp : ℚ
  min_temp : ℚ
  max_temp : ℚ
  dominant_weather : String
  avg_feels_like : ℚ
  avg_pressure : ℚ
  avg_humidity : ℚ
  record_count : ℕ
deriving DecidableEq

/-- The relational store: both tables plus the current identity value of
`weather_data` (the next auto-generated id is `ident + 1`, increment 1). -/
structure DB where
  weather_data : List Obs
  daily_summary : List Summary
  ident : ℤ
deriving DecidableEq

def msPerDay : ℤ := 86400000

/-- `CONVERT(date, timestamp)`: the calendar day of an instant, as
floor-division of the millisecond timestamp by one day. -/
def toDate (t : ℤ) : ℤ := t.fdiv msPerDay

/-- SQL `ROUND(x, 2)`: round to two decimal places. -/
def round2 (q : ℚ) : ℚ := ((round (q * 100) : ℤ) : ℚ) / 100

/-- SQL `SUM` as a left fold. -/
def aggSum (xs : List ℚ) : ℚ := xs.foldl (· + ·) 0

/-- SQL `AVG(CAST(x AS FLOAT))`: sum divided by count. -/
def aggAvg (xs : List ℚ) : ℚ := aggSum xs / (xs.length : ℚ)

/-- SQL `MIN` over a group (0 only on the empty group, where the SQL query
produces no row at all). -/
def aggMin : List ℚ → ℚ
  | [] => 0
  | x :: xs => xs.foldl min x

/-- SQL `MAX` over a group. -/
def aggMax : List ℚ → ℚ
  | [] => 0
  | x :: xs => xs.foldl max x

/-- The rows selected by `WHERE CONVERT(date, timestamp) = @yesterday AND
city = @city`. -/
def obsFor (tbl : List Obs) (d : ℤ) (c : String) : List Obs :=
  tbl.filter (fun o => toDate o.timestamp == d && o.city == c)

/-- `COUNT(*)` of the rows carrying a given weather label. -/
def countLabel (rows : List Obs) (w : String) : ℕ :=
  (rows.filter (fun o => o.weather == w)).length

/-- The `WeatherCounts` CTE before ranking: one `(weather, count)` pair per
distinct label (`GROUP BY weather`). -/
def weatherCounts (rows : List Obs) : List (String × ℕ) :=
  ((rows.map (fun o => o.weather)).dedup).map (fun w => (w, countLabel rows w))

/-- One insertion step of sorting by count descending; ties keep the
incumbent first, modelling the unspecified tie order of
`ROW_NUMBER() OVER (ORDER BY COUNT(*) DESC)`. -/
def insertByCount (p : String × ℕ) : List (String × ℕ) → List (String × ℕ)
  | [] => [p]
  | q :: qs => if q.2 < p.2 then p :: q :: qs else q :: insertByCount p qs

/-- `ORDER BY COUNT(*) DESC` as an insertion sort on the grouped pairs. -/
def sortByCountDesc : List (String × ℕ) → List (String × ℕ)
  | [] => []
  | p :: ps => insertByCount p (sortByCountDesc ps)

/-- `SELECT TOP 1 weather FROM WeatherCounts WHERE rn = 1`: the label of the
first pair in descending-count order ("" only for the empty group, where the
outer query inserts no row). -/
def dominantWeather (rows : List Obs) : String :=
  match sortByCountDesc (weatherCounts rows) with
  | [] => ""
  | p :: _ => p.1

/-- The row inserted by `aggregationQuery` for one city and date: rounded
averages, raw MIN/MAX of temperature, the dominant label, and `COUNT(*)`. -/
def summarize (tbl : List Obs) (d : ℤ) (c : String) : Summary :=
  { city := c
    date := d
    avg_temp := round2 (aggAvg ((obsFor tbl d c).map (fun o => o.temperature)))
    min_temp := aggMin ((obsFor tbl d c).map (fun o => o.temperature))
    max_temp := aggMax ((obsFor tbl d c).map (fun o => o.temperature))
    dominant_weather := dominantWeather (obsFor tbl d c)
    avg_feels_like := round2 (aggAvg ((obsFor tbl d c).map (fun o => o.feels_like)))
    avg_pressure := round2 (aggAvg ((obsFor tbl d c).map (fun o => (o.pressure : ℚ))))
    avg_humidity := round2 (aggAvg ((obsFor tbl d c).map (fun o => (o.humidity : ℚ))))
    record_count := (obsFor tbl d c).length }

/-- `checkDataQuery`: the distinct cities holding at least one observation
on the target date (`GROUP BY city`). -/
def citiesFor (tbl : List Obs) (d : ℤ) : List String :=
  ((tbl.filter (fun o => toDate o.timestamp == d)).map (fun o => o.city)).dedup

/-- The summary rows produced by the per-city loop of the handler. -/
def newSummaries (tbl : List Obs) (d : ℤ) : List Summary :=
  (citiesFor tbl d).map (summarize tbl d)

/-- Effect of the per-city loop on the store: append one summary per city
with data on the target date. -/
def insertSummaries (db : DB) (d : ℤ) : DB :=
  { db with daily_summary := db.daily_summary ++ newSummaries db.weather_data d }

/-- `resetIdentityQuery`'s seed: `ISNULL(MIN(id), 0) - 1` over the rows left
in `weather_data`.  After `DBCC CHECKIDENT(..., RESEED, seed)` the next
auto-generated id is `seed + 1`. -/
def newSeed (rows : List Obs) : ℤ :=
  (match rows.map (fun o => o.id) with
   | [] => 0
   | x :: xs => xs.foldl min x) - 1

/-- Fault injection for the three statements inside the purge transaction. -/
inductive Fault where
  | count
  | delete
  | reseed
deriving DecidableEq

def faultMsg : Fault → String
  | Fault.count => "count query failed"
  | Fault.delete => "delete query failed"
  | Fault.reseed => "identity reseed failed"

/-- The purge transaction of the handler: count (read-only, logging),
delete all rows of the target date, reseed the identity, commit.  A fault at
any step rolls the transaction back — the store reverts to its
pre-transaction state — and re-throws (the `some` message). -/
def purgeTransaction (db : DB) (d : ℤ) (fault : Option Fault) : DB × Option String :=
  if fault = some Fault.count then (db, some (faultMsg Fault.count))
  else
    let afterDelete : DB :=
      { db with weather_data := db.weather_data.filter (fun o => !(toDate o.timestamp == d)) }
    if fault = some Fault.delete then (db, some (faultMsg Fault.delete))
    else if fault = some Fault.reseed then (db, some (faultMsg Fault.reseed))
    else ({ afterDelete with ident := newSeed afterDelete.weather_data }, none)

/-- The `dailyAggregation` handler for target date `d`: if no city has data
on `d`, log and return (no insert, no transaction); otherwise insert the
per-city summaries and run the purge transaction.  The returned `Option
String` is the re-thrown error, `none` on success. -/
def dailyAggregation (db : DB) (d : ℤ) (fault : Option Fault) : DB × Option String :=
  if citiesFor db.weather_data d = [] then (db, none)
  else purgeTransaction (insertSummaries db d) d fault

/-! ## Collector (`weatherTrigger.js`) -/

/-- The `main` object of the external API payload. -/
structure MainData where
  temp : ℚ
  feels_like : ℚ
  pressure : ℚ
  humidity : ℚ
deriving DecidableEq

/-- One entry of the payload's `weather` array. -/
structure WeatherEntry where
  main : String
deriving DecidableEq

/-- The JSON body of a 2xx response: `dt` is the observation instant
reported by the API (in milliseconds, to compare with stored timestamps);
`main` and `weather` may each be missing. -/
structure ApiData where
  dt : ℤ
  main : Option MainData
  weather : Option (List WeatherEntry)
deriving DecidableEq

/-- An axios response; `data = none` models a body that is absent/falsy. -/
structure ApiResponse where
  data : Option ApiData
deriving DecidableEq

/-- The record built by `fetchWeatherData` before insertion. -/
structure RawObs where
  city : String
  temperature : ℚ
  feels_like : ℚ
  pressure : ℚ
  humidity : ℚ
  weather : String
  timestamp : ℤ
deriving DecidableEq

/-- `5.5 * 60 * 60 * 1000` milliseconds. -/
def istOffsetMs : ℤ := 19800000

/-- `fetchWeatherData(city, context)`.  `resp = none` models an axios error
(timeout or non-2xx), caught and turned into `null`.  A missing body or
missing `main` raises `Invalid weather data format`, also caught to `null`.
A missing `weather` array raises a TypeError at `response.data.weather[0]`
(the optional chaining sits after the indexing), likewise caught to `null`;
only a present-but-empty array reaches the `|| 'Unknown'` fallback, which
also fires when the first entry's `main` is the empty string (falsy).
The timestamp is `new Date().toISOString()` — the clock `now` at fetch time,
not the payload's `dt`. -/
def fetchWeatherData (cityName : String) (resp : Option ApiResponse) (now : ℤ) : Option RawObs :=
  match resp with
  | none => none
  | some r =>
    match r.data with
    | none => none
    | some d =>
      match d.main with
      | none => none
      | some m =>
        match d.weather with
        | none => none
        | some ws =>
          some { city := cityName
                 temperature := m.temp
                 feels_like := m.feels_like
                 pressure := m.pressure
                 humidity := m.humidity
                 weather := match ws.head? with
                            | none => "Unknown"
                            | some e => if e.main = "" then "Unknown" else e.main
                 timestamp := now }

/-- The `weather_data` row written by `insertWeatherData`: pressure and
humidity are bound as `sql.Int` (the fractional part of the fetched number
is not preserved; modelled as the floor, the values being non-negative),
temperature and feels_like as `sql.Float` (kept exactly), and the timestamp
is shifted by the fixed IST offset before being stored as
DATETIMEOFFSET. -/
def storedObs (i : ℤ) (p : RawObs) : Obs :=
  { id := i
    city := p.city
    temperature := p.temperature
    feels_like := p.feels_like
    pressure := ⌊p.pressure⌋
    humidity := ⌊p.humidity⌋
    weather := p.weather
    timestamp := p.timestamp + istOffsetMs }

/-- `insertWeatherData`: append one row, consuming the next identity. -/
def insertWeatherData (db : DB) (p : RawObs) : DB :=
  { db with weather_data := db.weather_data ++ [storedObs (db.ident + 1) p]
            ident := db.ident + 1 }

/-- The `weatherTrigger` handler: fail at once when the API key is missing;
fetch every configured city (each paired with its response), keep the
non-null results, return quietly when none succeeded, otherwise insert every
valid observation. -/
def weatherTrigger (apiKey : Option String) (responses : List (String × Option ApiResponse))
    (now : ℤ) (db : DB) : Except String DB :=
  match apiKey with
  | none => Except.error "OpenWeather API key not configured"
  | some _ =>
    let validWeatherData :=
      (responses.map (fun cr => fetchWeatherData cr.1 cr.2 now)).filterMap id
    if validWeatherData.isEmpty then Except.ok db
    else Except.ok (validWeatherData.foldl insertWeatherData db)

/-! ## Concrete stores and payloads used by witnesses and counterexamples -/

/-- Convenience constructor for `weather_data` rows. -/
def mkObs (i : ℤ) (c : String) (t fl : ℚ) (pr hu : ℤ) (w : String) (ts : ℤ) : Obs :=
  { id := i, city := c, temperature := t, feels_like := fl, pressure := pr,
    humidity := hu, weather := w, timestamp := ts }

/-- Ten observations for one city and day with label counts A:3, B:5, C:2. -/
def rowsABC : List Obs :=
  [ mkObs 1 "Delhi" 20 21 1000 40 "A" 0
  , mkObs 2 "Delhi" 21 22 1001 41 "A" 1
  , mkObs 3 "Delhi" 22 23 1002 42 "A" 2
  , mkObs 4 "Delhi" 23 24 1003 43 "B" 3
  , mkObs 5 "Delhi" 24 25 1004 44 "B" 4
  , mkObs 6 "Delhi" 25 26 1005 45 "B" 5
  , mkObs 7 "Delhi" 26 27 1006 46 "B" 6
  , mkObs 8 "Delhi" 27 28 1007 47 "B" 7
  , mkObs 9 "Delhi" 28 29 1008 48 "C" 8
  , mkObs 10 "Delhi" 29 30 1009 49 "C" 9 ]

/-- Store with rows id 3 and 4 on day 0 (to be purged) and surviving rows
id 5 and 9 on day 1. -/
def dbC2 : DB :=
  { weather_data :=
      [ mkObs 3 "Delhi" 20 20 1000 40 "Haze" 100
      , mkObs 4 "Delhi" 22 22 1000 41 "Haze" 200
      , mkObs 5 "Mumbai" 30 31 1005 70 "Clouds" 86400000
      , mkObs 9 "Delhi" 21 21 1001 42 "Haze" 86400001 ]
    daily_summary := []
    ident := 9 }

/-- Store whose only row is on day 0: the purge empties the table. -/
def dbC2b : DB :=
  { weather_data := [ mkObs 7 "Delhi" 20 20 1000 40 "Haze" 0 ]
    daily_summary := []
    ident := 7 }

/-- Store with two observations for one city on day 0. -/
def dbSmall : DB :=
  { weather_data :=
      [ mkObs 1 "Delhi" 20 21 1000 40 "Haze" 100
      , mkObs 2 "Delhi" 24 25 1002 44 "Clear" 200 ]
    daily_summary := []
    ident := 2 }

/-- An empty store. -/
def dbEmpty : DB := { weather_data := [], daily_summary := [], ident := 0 }

/-- A well-formed API payload (with an empty `weather` array) whose `dt`
differs from the clock at fetch time. -/
def respC7 : ApiResponse :=
  { data := some { dt := 0
                   main := some { temp := 25, feels_like := 26, pressure := 1003, humidity := 40 }
                   weather := some [] } }

/-- The record `fetchWeatherData` builds from `respC7` at clock 86400000. -/
def rawC7 : RawObs :=
  { city := "Delhi", temperature := 25, feels_like := 26, pressure := 1003,
    humidity := 40, weather := "Unknown", timestamp := 86400000 }

/-- A well-formed API payload with the given instant, readings and label. -/
def mkResp (dt : ℤ) (t fl pr hu : ℚ) (w : String) : ApiResponse :=
  { data := some { dt := dt
                   main := some { temp := t, feels_like := fl, pressure := pr, humidity := hu }
                   weather := some [{ main := w }] } }

/-- A malformed payload: the required `main` object is missing. -/
def respNoMain : ApiResponse :=
  { data := some { dt := 5, main := none, weather := some [{ main := "Clear" }] } }

/-- Six per-city fetch outcomes: four valid payloads, one timeout (`none`)
and one malformed payload (missing `main`). -/
def responsesC8 : List (String × Option ApiResponse) :=
  [ ("Delhi", some (mkResp 1 20 21 1000 40 "Haze"))
  , ("Mumbai", some (mkResp 2 30 32 1005 70 "Clouds"))
  , ("Chennai", none)
  , ("Bangalore", some (mkResp 4 25 25 1002 60 "Rain"))
  , ("Kolkata", some respNoMain)
  , ("Hyderabad", some (mkResp 6 28 29 1001 55 "Clear")) ]

/-- Count carried by the head of a ranked list (0 for the empty list). -/
def hdCount : List (String × ℕ) → ℕ
  | [] => 0
  | p :: _ => p.2

/-! ## Helper lemmas -/

theorem foldl_add_eq (a : ℚ) (xs : List ℚ) : xs.foldl (· + ·) a = a + xs.sum := by
  induction xs generalizing a with
  | nil => simp
  | cons x t ih => simp only [List.foldl_cons, List.sum_cons, ih]; ring

theorem aggSum_eq_sum (xs : List ℚ) : aggSum xs = xs.sum := by
  simpa [aggSum] using foldl_add_eq 0 xs

theorem foldl_min_le (a : ℚ) (xs : List ℚ) :
    xs.foldl min a ≤ a ∧ ∀ y ∈ xs, xs.foldl min a ≤ y := by
  induction xs generalizing a with
  | nil => exact ⟨le_refl a, by simp⟩
  | cons x t ih =>
    obtain ⟨h1, h2⟩ := ih (min a x)
    refine ⟨le_trans h1 (min_le_left a x), ?_⟩
    intro y hy
    rcases List.mem_cons.mp hy with rfl | hyt
    · exact le_trans h1 (min_le_right a y)
    · exact h2 y hyt

theorem foldl_min_mem (a : ℚ) (xs : List ℚ) :
    xs.foldl min a = a ∨ xs.foldl min a ∈ xs := by
  induction xs generalizing a with
  | nil => exact Or.inl rfl
  | cons x t ih =>
    rcases ih (min a x) with h | h
    · rcases min_choice a x with h' | h'
      · exact Or.inl (by rw [List.foldl_cons, h, h'])
      · exact Or.inr (by rw [List.foldl_cons, h, h']; exact List.mem_cons_self x t)
    · exact Or.inr (List.mem_cons_of_mem x h)

theorem foldl_max_le (a : ℚ) (xs : List ℚ) :
    a ≤ xs.foldl max a ∧ ∀ y ∈ xs, y ≤ xs.foldl max a := by
  induction xs generalizing a with
  | nil => exact ⟨le_refl a, by simp⟩
  | cons x t ih =>
    obtain ⟨h1, h2⟩ := ih (max a x)
    refine ⟨le_trans (le_max_left a x) h1, ?_⟩
    intro y hy
    rcases List.mem_cons.mp hy with rfl | hyt
    · exact le_trans (le_max_right a y) h1
    · exact h2 y hyt

theorem foldl_max_mem (a : ℚ) (xs : List ℚ) :
    xs.foldl max a = a ∨ xs.foldl max a ∈ xs := by
  induction xs generalizing a with
  | nil => exact Or.inl rfl
  | cons x t ih =>
    rcases ih (max a x) with h | h
    · rcases max_choice a x with h' | h'
      · exact Or.inl (by rw [List.foldl_cons, h, h'])
      · exact Or.inr (by rw [List.foldl_cons, h, h']; exact List.mem_cons_self x t)
    · exact Or.inr (List.mem_cons_of_mem x h)

theorem aggMin_mem (xs : List ℚ) (h : xs ≠ []) : aggMin xs ∈ xs := by
  match xs with
  | [] => exact absurd rfl h
  | x :: t =>
    rcases foldl_min_mem x t with h' | h'
    · rw [aggMin, h']; exact List.mem_cons_self x t
    · exact List.mem_cons_of_mem x (by rw [aggMin]; exact h')

theorem aggMin_le (xs : List ℚ) : ∀ y ∈ xs, aggMin xs ≤ y := by
  match xs with
  | [] => simp
  | x :: t =>
    intro y hy
    rcases List.mem_cons.mp hy with rfl | hyt
    · exact (foldl_min_le y t).1
    · exact (foldl_min_le x t).2 y hyt

theorem aggMax_mem (xs : List ℚ) (h : xs ≠ []) : aggMax xs ∈ xs := by
  match xs with
  | [] => exact absurd rfl h
  | x :: t =>
    rcases foldl_max_mem x t with h' | h'
    · rw [aggMax, h']; exact List.mem_cons_self x t
    · exact List.mem_cons_of_mem x (by rw [aggMax]; exact h')

theorem aggMax_ge (xs : List ℚ) : ∀ y ∈ xs, y ≤ aggMax xs := by
  match xs with
  | [] => simp
  | x :: t =>
    intro y hy
    rcases List.mem_cons.mp hy with rfl | hyt
    · exact (foldl_max_le y t).1
    · exact (foldl_max_le x t).2 y hyt

theorem hdCount_insertByCount (p : String × ℕ) (l : List (String × ℕ)) :
    hdCount (insertByCount p l) = max p.2 (hdCount l) := by
  cases l with
  | nil => simp [insertByCount, hdCount]
  | cons q qs =>
    by_cases h : q.2 < p.2
    · rw [insertByCount, if_pos h, hdCount, hdCount, max_eq_left (le_of_lt h)]
    · rw [insertByCount, if_neg h, hdCount, hdCount, max_eq_right (le_of_not_lt h)]

theorem le_hdCount_sort (l : List (String × ℕ)) :
    ∀ q ∈ l, q.2 ≤ hdCount (sortByCountDesc l) := by
  induction l with
  | nil => simp
  | cons p ps ih =>
    intro q hq
    rw [sortByCountDesc, hdCount_insertByCount]
    rcases List.mem_cons.mp hq with rfl | hqs
    · exact le_max_left _ _
    · exact le_trans (ih q hqs) (le_max_right _ _)

theorem mem_of_mem_insertByCount {x p : String × ℕ} {l : List (String × ℕ)}
    (hx : x ∈ insertByCount p l) : x = p ∨ x ∈ l := by
  induction l with
  | nil =>
    rw [insertByCount] at hx
    exact Or.inl (List.mem_singleton.mp hx)
  | cons q qs ih =>
    by_cases h : q.2 < p.2
    · rw [insertByCount, if_pos h] at hx
      rcases List.mem_cons.mp hx with rfl | hx2
      · exact Or.inl rfl
      · exact Or.inr hx2
    · rw [insertByCount, if_neg h] at hx
      rcases List.mem_cons.mp hx with rfl | hx2
      · exact Or.inr (List.mem_cons_self _ _)
      · rcases ih hx2 with h1 | h2
        · exact Or.inl h1
        · exact Or.inr (List.mem_cons_of_mem _ h2)

theorem mem_of_mem_sort {x : String × ℕ} {l : List (String × ℕ)}
    (hx : x ∈ sortByCountDesc l) : x ∈ l := by
  induction l with
  | nil => simp [sortByCountDesc] at hx
  | cons p ps ih =>
    rw [sortByCountDesc] at hx
    rcases mem_of_mem_insertByCount hx with rfl | h2
    · exact List.mem_cons_self _ _
    · exact List.mem_cons_of_mem _ (ih h2)

theorem insertByCount_ne_nil (p : String × ℕ) (l : List (String × ℕ)) :
    insertByCount p l ≠ [] := by
  cases l with
  | nil => simp [insertByCount]
  | cons q qs =>
    by_cases h : q.2 < p.2
    · rw [insertByCount, if_pos h]; simp
    · rw [insertByCount, if_neg h]; simp

theorem sort_ne_nil {l : List (String × ℕ)} (h : l ≠ []) : sortByCountDesc l ≠ [] := by
  cases l with
  | nil => exact absurd rfl h
  | cons p ps => rw [sortByCountDesc]; exact insertByCount_ne_nil p _

theorem countLabel_pos_mem {rows : List Obs} {w : String} (h : 0 < countLabel rows w) :
    w ∈ (rows.map (fun o => o.weather)).dedup := by
  rw [countLabel] at h
  obtain ⟨o, ho⟩ := List.exists_mem_of_length_pos h
  obtain ⟨homem, hw⟩ := List.mem_filter.mp ho
  rw [List.mem_dedup]
  exact beq_iff_eq.mp hw ▸ List.mem_map_of_mem (fun o => o.weather) homem

theorem weatherCounts_ne_nil {rows : List Obs} (hne : rows ≠ []) :
    weatherCounts rows ≠ [] := by
  rw [weatherCounts]
  intro hmap
  rcases List.map_eq_nil_iff.mp hmap with hd
  rcases (List.dedup_eq_nil _).mp hd with hm
  exact hne (List.map_eq_nil_iff.mp hm)

/-- The label ranked first is a label of some observation of the group. -/
theorem dominant_mem (rows : List Obs) (hne : rows ≠ []) :
    dominantWeather rows ∈ rows.map (fun o => o.weather) := by
  have hs : sortByCountDesc (weatherCounts rows) ≠ [] :=
    sort_ne_nil (weatherCounts_ne_nil hne)
  obtain ⟨hd, tl, hcons⟩ := List.exists_cons_of_ne_nil hs
  have hdom : dominantWeather rows = hd.1 := by rw [dominantWeather, hcons]
  have hdmem : hd ∈ weatherCounts rows :=
    mem_of_mem_sort (hcons ▸ List.mem_cons_self hd tl)
  obtain ⟨w0, hw0mem, hw0⟩ := List.mem_map.mp hdmem
  rw [hdom, ← hw0]
  exact List.mem_dedup.mp hw0mem

/-- The head of the ranked `WeatherCounts` carries a maximal per-label count:
the dominant label's count dominates every label's count. -/
theorem countLabel_le_dominant (rows : List Obs) (hne : rows ≠ []) (w : String) :
    countLabel rows w ≤ countLabel rows (dominantWeather rows) := by
  have hs : sortByCountDesc (weatherCounts rows) ≠ [] :=
    sort_ne_nil (weatherCounts_ne_nil hne)
  obtain ⟨hd, tl, hcons⟩ := List.exists_cons_of_ne_nil hs
  have hdom : dominantWeather rows = hd.1 := by rw [dominantWeather, hcons]
  have hdmem : hd ∈ weatherCounts rows := mem_of_mem_sort (hcons ▸ List.mem_cons_self hd tl)
  obtain ⟨w0, _, hw0⟩ := List.mem_map.mp hdmem
  have hcount : countLabel rows (dominantWeather rows) = hd.2 := by
    rw [hdom, ← hw0]
  rcases Nat.eq_zero_or_pos (countLabel rows w) with h0 | hpos
  · rw [h0]; exact Nat.zero_le _
  · have hwmem : (w, countLabel rows w) ∈ weatherCounts rows :=
      List.mem_map_of_mem _ (countLabel_pos_mem hpos)
    have := le_hdCount_sort (weatherCounts rows) (w, countLabel rows w) hwmem
    rw [hcons] at this
    rw [hcount]
    exact this

theorem filter_map_comm {α β : Type} (f : α → β) (p : β → Bool) (l : List α) :
    (l.map f).filter p = (l.filter (fun a => p (f a))).map f := by
  induction l with
  | nil => rfl
  | cons x t ih =>
    by_cases h : p (f x)
    · simp [List.filter_cons, h, ih]
    · simp [List.filter_cons, h, ih]

theorem filter_beq_eq_singleton {l : List String} {c : String} (hn : l.Nodup) (hc : c ∈ l) :
    l.filter (fun x => x == c) = [c] := by
  induction l with
  | nil => cases hc
  | cons x t ih =>
    obtain ⟨hxt, hnt⟩ := List.nodup_cons.mp hn
    rcases List.mem_cons.mp hc with rfl | hct
    · rw [List.filter_cons, if_pos (beq_iff_eq.mpr rfl)]
      have ht : t.filter (fun y => y == c) = [] := by
        rw [List.filter_eq_nil_iff]
        intro a ha hac
        exact hxt (beq_iff_eq.mp hac ▸ ha)
      rw [ht]
    · have hx : ¬((x == c) = true) := by
        intro hxc
        exact hxt (beq_iff_eq.mp hxc ▸ hct)
      rw [List.filter_cons, if_neg hx]
      exact ih hnt hct

theorem mem_obsFor {tbl : List Obs} {d : ℤ} {c : String} {o : Obs} :
    o ∈ obsFor tbl d c ↔ o ∈ tbl ∧ toDate o.timestamp = d ∧ o.city = c := by
  rw [obsFor, List.mem_filter]
  constructor
  · rintro ⟨h1, h2⟩
    rw [Bool.and_eq_true] at h2
    exact ⟨h1, beq_iff_eq.mp h2.1, beq_iff_eq.mp h2.2⟩
  · rintro ⟨h1, h2, h3⟩
    refine ⟨h1, ?_⟩
    rw [Bool.and_eq_true]
    exact ⟨beq_iff_eq.mpr h2, beq_iff_eq.mpr h3⟩

theorem mem_citiesFor {tbl : List Obs} {d : ℤ} {c : String} :
    c ∈ citiesFor tbl d ↔ ∃ o, o ∈ tbl ∧ toDate o.timestamp = d ∧ o.city = c := by
  rw [citiesFor, List.mem_dedup, List.mem_map]
  constructor
  · rintro ⟨o, ho, rfl⟩
    obtain ⟨h1, h2⟩ := List.mem_filter.mp ho
    exact ⟨o, h1, beq_iff_eq.mp h2, rfl⟩
  · rintro ⟨o, ho, hd, rfl⟩
    exact ⟨o, List.mem_filter.mpr ⟨ho, beq_iff_eq.mpr hd⟩, rfl⟩

theorem obsFor_ne_nil_of_mem_cities {tbl : List Obs} {d : ℤ} {c : String}
    (hc : c ∈ citiesFor tbl d) : obsFor tbl d c ≠ [] := by
  obtain ⟨o, ho, hd, hcity⟩ := mem_citiesFor.mp hc
  intro hnil
  have hmem : o ∈ obsFor tbl d c := mem_obsFor.mpr ⟨ho, hd, hcity⟩
  rw [hnil] at hmem
  cases hmem

/-- The per-city loop inserts exactly one summary for each city having data:
filtering the inserted batch by city yields exactly the one summary. -/
theorem newSummaries_filter_city (tbl : List Obs) (d : ℤ) {c : String}
    (hc : c ∈ citiesFor tbl d) :
    (newSummaries tbl d).filter (fun s => s.city == c) = [summarize tbl d c] := by
  rw [newSummaries, filter_map_comm]
  have hfe : (citiesFor tbl d).filter (fun a => (summarize tbl d a).city == c)
      = (citiesFor tbl d).filter (fun x => x == c) := rfl
  have hn : (citiesFor tbl d).Nodup := List.nodup_dedup _
  rw [hfe, filter_beq_eq_singleton hn hc]
  rfl

theorem length_foldl_insert (l : List RawObs) (db : DB) :
    (l.foldl insertWeatherData db).weather_data.length = db.weather_data.length + l.length := by
  induction l generalizing db with
  | nil => simp
  | cons p t ih =>
    rw [List.foldl_cons, ih]
    simp only [insertWeatherData, List.length_append, List.length_cons, List.length_nil]
    omega

theorem mem_foldl_insert_mono {x : Obs} {db : DB} (l : List RawObs)
    (hx : x ∈ db.weather_data) : x ∈ (l.foldl insertWeatherData db).weather_data := by
  induction l generalizing db with
  | nil => exact hx
  | cons p t ih =>
    rw [List.foldl_cons]
    exact ih (List.mem_append_left _ hx)

theorem exists_stored_of_mem (l : List RawObs) (db : DB) :
    ∀ p ∈ l, ∃ i : ℤ, storedObs i p ∈ (l.foldl insertWeatherData db).weather_data := by
  induction l generalizing db with
  | nil => simp
  | cons q t ih =>
    intro p hp
    rcases List.mem_cons.mp hp with rfl | hpt
    · refine ⟨db.ident + 1, ?_⟩
      rw [List.foldl_cons]
      exact mem_foldl_insert_mono t
        (List.mem_append_right _ (List.mem_singleton.mpr rfl))
    · rw [List.foldl_cons]
      exact ih _ p hpt

theorem sum_map_intCast (rows : List Obs) (f : Obs → ℤ) :
    (rows.map (fun o => ((f o : ℤ) : ℚ))).sum = (((rows.map f).sum : ℤ) : ℚ) := by
  induction rows with
  | nil => simp
  | cons x t ih => simp [ih]

theorem purge_fault (db : DB) (d : ℤ) (f : Fault) :
    purgeTransaction db d (some f) = (db, some (faultMsg f)) := by
  cases f <;> rfl

theorem dailyAggregation_no_data {db : DB} {d : ℤ}
    (h : citiesFor db.weather_data d = []) (fault : Option Fault) :
    dailyAggregation db d fault = (db, none) := by
  rw [dailyAggregation, if_pos h]

theorem dailyAggregation_success (db : DB) (d : ℤ)
    (h : citiesFor db.weather_data d ≠ []) :
    dailyAggregation db d none =
      ({ weather_data := db.weather_data.filter (fun o => !(toDate o.timestamp == d)),
         daily_summary := db.daily_summary ++ newSummaries db.weather_data d,
         ident := newSeed (db.weather_data.filter (fun o => !(toDate o.timestamp == d))) },
       none) := by
  rw [dailyAggregation, if_neg h]
  rfl

theorem filter_date_of_purged (tbl : List Obs) (d : ℤ) :
    (tbl.filter (fun o => !(toDate o.timestamp == d))).filter
      (fun o => toDate o.timestamp == d) = [] := by
  rw [List.filter_eq_nil_iff]
  intro o ho hd
  have h2 := (List.mem_filter.mp ho).2
  rw [hd] at h2
  cases h2

/-! ## Claim theorems -/

/-- Claim C6: if no observation rows exist for the target date, the
Aggregator exits successfully without inserting any summary and without
attempting any deletion (the store is returned unchanged, whatever fault
might have hit the transaction); consequently a second run immediately
after a successful run for the same date is a no-op. -/
theorem c6_idempotent_noop :
    (∀ (db : DB) (d : ℤ) (fault : Option Fault),
        citiesFor db.weather_data d = [] → dailyAggregation db d fault = (db, none)) ∧
    (∀ (db : DB) (d : ℤ),
        dailyAggregation (dailyAggregation db d none).1 d none
          = ((dailyAggregation db d none).1, none)) := by
  refine ⟨fun db d fault h => dailyAggregation_no_data h fault, ?_⟩
  intro db d
  by_cases h : citiesFor db.weather_data d = []
  · rw [dailyAggregation_no_data h none]
    exact dailyAggregation_no_data h none
  · rw [dailyAggregation_success db d h]
    have hcit : citiesFor
        (db.weather_data.filter (fun o => !(toDate o.timestamp == d))) d = [] := by
      rw [citiesFor, filter_date_of_purged]
      rfl
    exact dailyAggregation_no_data hcit none

/-- Claim C6 witness: on a store with no observation for day 0 the run
returns the store unchanged with no error. -/
theorem c6_witness :
    citiesFor dbEmpty.weather_data 0 = [] ∧
    dailyAggregation dbEmpty 0 none = (dbEmpty, none) :=
  ⟨by decide, c6_idempotent_noop.1 dbEmpty 0 none (by decide)⟩

/-- Claim C4: after a fault-free Aggregator run for date `d`, no observation
with date `d` remains in `weather_data`, and every city that had data on `d`
has a summary row for `(city, d)` in `daily_weather_summary`. -/
theorem c4_purge_completeness (db : DB) (d : ℤ) :
    (dailyAggregation db d none).1.weather_data.filter
        (fun o => toDate o.timestamp == d) = [] ∧
    ∀ c ∈ citiesFor db.weather_data d,
      ∃ s ∈ (dailyAggregation db d none).1.daily_summary, s.city = c ∧ s.date = d := by
  by_cases h : citiesFor db.weather_data d = []
  · rw [dailyAggregation_no_data h none]
    constructor
    · rw [List.filter_eq_nil_iff]
      intro o ho hd
      have hmem : o.city ∈ citiesFor db.weather_data d :=
        mem_citiesFor.mpr ⟨o, ho, beq_iff_eq.mp hd, rfl⟩
      rw [h] at hmem
      cases hmem
    · intro c hc
      rw [h] at hc
      cases hc
  · rw [dailyAggregation_success db d h]
    constructor
    · exact filter_date_of_purged _ d
    · intro c hc
      refine ⟨summarize db.weather_data d c, ?_, rfl, rfl⟩
      exact List.mem_append_right _ (List.mem_map_of_mem _ hc)

/-- Claim C4 witness: concrete run over a two-row store for day 0. -/
theorem c4_witness :
    (dailyAggregation dbSmall 0 none).1.weather_data.filter
        (fun o => toDate o.timestamp == 0) = [] ∧
    ∃ s ∈ (dailyAggregation dbSmall 0 none).1.daily_summary,
      s.city = "Delhi" ∧ s.date = 0 :=
  ⟨(c4_purge_completeness dbSmall 0).1,
   (c4_purge_completeness dbSmall 0).2 "Delhi" (by decide)⟩

/-- Claim C5: a fault in any statement of the purge transaction rolls the
transaction back — `weather_data` and the identity are exactly as before the
purge — re-throws the error, and leaves the summary rows inserted before the
transaction in place. -/
theorem c5_rollback (db : DB) (d : ℤ) (f : Fault)
    (h : citiesFor db.weather_data d ≠ []) :
    dailyAggregation db d (some f) =
      ({ weather_data := db.weather_data,
         daily_summary := db.daily_summary ++ newSummaries db.weather_data d,
         ident := db.ident }, some (faultMsg f)) := by
  rw [dailyAggregation, if_neg h, purge_fault]
  rfl

/-- Claim C5 witness: a fault in the delete statement over a concrete
two-row store. -/
theorem c5_witness :
    citiesFor dbSmall.weather_data 0 ≠ [] ∧
    dailyAggregation dbSmall 0 (some Fault.delete) =
      ({ weather_data := dbSmall.weather_data,
         daily_summary := dbSmall.daily_summary ++ newSummaries dbSmall.weather_data 0,
         ident := dbSmall.ident }, some (faultMsg Fault.delete)) :=
  ⟨by decide, c5_rollback dbSmall 0 Fault.delete (by decide)⟩

/-- Claim C2 (code bug): the reseed uses `ISNULL(MIN(id), 0) - 1`, so after
the purge the next auto-generated id equals the MINIMUM remaining id (here
5, an id still present — a collision), not the maximum remaining id plus
one (here 10); and on an emptied table the next id is 0, not 1. -/
theorem c2_identity_reseed :
    (dailyAggregation dbC2 0 none).1.weather_data.map (fun o => o.id) = [5, 9] ∧
    (dailyAggregation dbC2 0 none).1.ident + 1 = 5 ∧
    (5 : ℤ) ∈ (dailyAggregation dbC2 0 none).1.weather_data.map (fun o => o.id) ∧
    (dailyAggregation dbC2 0 none).1.ident + 1 ≠ 9 + 1 ∧
    (dailyAggregation dbC2b 0 none).1.weather_data = [] ∧
    (dailyAggregation dbC2b 0 none).1.ident + 1 = 0 := by
  refine ⟨by decide, by decide, by decide, by decide, by decide, by decide⟩

/-- Claim C3: the dominant weather of every summarized city/date carries a
maximal occurrence count among that day's labels; in particular, for counts
A:3, B:5, C:2 the selected label is "B". -/
theorem c3_dominant_weather (tbl : List Obs) (d : ℤ) (c : String)
    (hc : c ∈ citiesFor tbl d) :
    ((summarize tbl d c).dominant_weather
        ∈ (obsFor tbl d c).map (fun o => o.weather) ∧
      ∀ w, countLabel (obsFor tbl d c) w
        ≤ countLabel (obsFor tbl d c) ((summarize tbl d c).dominant_weather)) ∧
    (summarize rowsABC 0 "Delhi").dominant_weather = "B" := by
  have hne := obsFor_ne_nil_of_mem_cities hc
  exact ⟨⟨dominant_mem _ hne, fun w => countLabel_le_dominant _ hne w⟩, by decide⟩

/-- Claim C3 witness: instantiated on the concrete A:3/B:5/C:2 store. -/
theorem c3_witness :
    "Delhi" ∈ citiesFor rowsABC 0 ∧
    (((summarize rowsABC 0 "Delhi").dominant_weather
        ∈ (obsFor rowsABC 0 "Delhi").map (fun o => o.weather) ∧
      ∀ w, countLabel (obsFor rowsABC 0 "Delhi") w
        ≤ countLabel (obsFor rowsABC 0 "Delhi")
            ((summarize rowsABC 0 "Delhi").dominant_weather)) ∧
    (summarize rowsABC 0 "Delhi").dominant_weather = "B") :=
  ⟨by decide, c3_dominant_weather rowsABC 0 "Delhi" (by decide)⟩

/-- Claim C1: for every city with data on the target date, the loop inserts
exactly one summary row, whose avg_temp / avg_feels_like / avg_pressure /
avg_humidity are the arithmetic means of that city's values rounded to two
decimals, whose min_temp and max_temp are the minimum and maximum
temperature, and whose record_count is the number of contributing rows. -/
theorem c1_summary_correctness (tbl : List Obs) (d : ℤ) (c : String)
    (hc : c ∈ citiesFor tbl d) :
    (newSummaries tbl d).filter (fun s => s.city == c) = [summarize tbl d c] ∧
    (summarize tbl d c).avg_temp
      = round2 (((obsFor tbl d c).map (fun o => o.temperature)).sum
          / ((obsFor tbl d c).length : ℚ)) ∧
    ((summarize tbl d c).min_temp ∈ (obsFor tbl d c).map (fun o => o.temperature) ∧
      ∀ t ∈ (obsFor tbl d c).map (fun o => o.temperature),
        (summarize tbl d c).min_temp ≤ t) ∧
    ((summarize tbl d c).max_temp ∈ (obsFor tbl d c).map (fun o => o.temperature) ∧
      ∀ t ∈ (obsFor tbl d c).map (fun o => o.temperature),
        t ≤ (summarize tbl d c).max_temp) ∧
    (summarize tbl d c).avg_feels_like
      = round2 (((obsFor tbl d c).map (fun o => o.feels_like)).sum
          / ((obsFor tbl d c).length : ℚ)) ∧
    (summarize tbl d c).avg_pressure
      = round2 (((obsFor tbl d c).map (fun o => (o.pressure : ℚ))).sum
          / ((obsFor tbl d c).length : ℚ)) ∧
    (summarize tbl d c).avg_humidity
      = round2 (((obsFor tbl d c).map (fun o => (o.humidity : ℚ))).sum
          / ((obsFor tbl d c).length : ℚ)) ∧
    (summarize tbl d c).record_count = (obsFor tbl d c).length := by
  have hne : obsFor tbl d c ≠ [] := obsFor_ne_nil_of_mem_cities hc
  have hmapne : (obsFor tbl d c).map (fun o => o.temperature) ≠ [] := by
    intro hmap
    exact hne (List.map_eq_nil_iff.mp hmap)
  refine ⟨newSummaries_filter_city tbl d hc, ?_,
      ⟨aggMin_mem _ hmapne, aggMin_le _⟩, ⟨aggMax_mem _ hmapne, aggMax_ge _⟩,
      ?_, ?_, ?_, rfl⟩
  · show round2 (aggAvg ((obsFor tbl d c).map (fun o => o.temperature))) = _
    rw [aggAvg, aggSum_eq_sum, List.length_map]
  · show round2 (aggAvg ((obsFor tbl d c).map (fun o => o.feels_like))) = _
    rw [aggAvg, aggSum_eq_sum, List.length_map]
  · show round2 (aggAvg ((obsFor tbl d c).map (fun o => (o.pressure : ℚ)))) = _
    rw [aggAvg, aggSum_eq_sum, List.length_map]
  · show round2 (aggAvg ((obsFor tbl d c).map (fun o => (o.humidity : ℚ)))) = _
    rw [aggAvg, aggSum_eq_sum, List.length_map]

/-- Claim C1 witness: instantiated on a concrete two-row store for one city
and day 0. -/
theorem c1_witness :
    "Delhi" ∈ citiesFor dbSmall.weather_data 0 ∧
    ((newSummaries dbSmall.weather_data 0).filter (fun s => s.city == "Delhi")
        = [summarize dbSmall.weather_data 0 "Delhi"] ∧
    (summarize dbSmall.weather_data 0 "Delhi").avg_temp
      = round2 (((obsFor dbSmall.weather_data 0 "Delhi").map (fun o => o.temperature)).sum
          / ((obsFor dbSmall.weather_data 0 "Delhi").length : ℚ)) ∧
    ((summarize dbSmall.weather_data 0 "Delhi").min_temp
        ∈ (obsFor dbSmall.weather_data 0 "Delhi").map (fun o => o.temperature) ∧
      ∀ t ∈ (obsFor dbSmall.weather_data 0 "Delhi").map (fun o => o.temperature),
        (summarize dbSmall.weather_data 0 "Delhi").min_temp ≤ t) ∧
    ((summarize dbSmall.weather_data 0 "Delhi").max_temp
        ∈ (obsFor dbSmall.weather_data 0 "Delhi").map (fun o => o.temperature) ∧
      ∀ t ∈ (obsFor dbSmall.weather_data 0 "Delhi").map (fun o => o.temperature),
        t ≤ (summarize dbSmall.weather_data 0 "Delhi").max_temp) ∧
    (summarize dbSmall.weather_data 0 "Delhi").avg_feels_like
      = round2 (((obsFor dbSmall.weather_data 0 "Delhi").map (fun o => o.feels_like)).sum
          / ((obsFor dbSmall.weather_data 0 "Delhi").length : ℚ)) ∧
    (summarize dbSmall.weather_data 0 "Delhi").avg_pressure
      = round2 (((obsFor dbSmall.weather_data 0 "Delhi").map (fun o => (o.pressure : ℚ))).sum
          / ((obsFor dbSmall.weather_data 0 "Delhi").length : ℚ)) ∧
    (summarize dbSmall.weather_data 0 "Delhi").avg_humidity
      = round2 (((obsFor dbSmall.weather_data 0 "Delhi").map (fun o => (o.humidity : ℚ))).sum
          / ((obsFor dbSmall.weather_data 0 "Delhi").length : ℚ)) ∧
    (summarize dbSmall.weather_data 0 "Delhi").record_count
      = (obsFor dbSmall.weather_data 0 "Delhi").length) :=
  ⟨by decide, c1_summary_correctness dbSmall.weather_data 0 "Delhi" (by decide)⟩

/-- Claim C7 counterexample: the payload's instant is `dt = 0`, yet at clock
86400000 the stored timestamp is 86400000 + 5.5h, not the API instant plus
5.5h — the stored timestamp is not derived from the API-returned instant. -/
theorem c7_counterexample :
    ((fetchWeatherData "Delhi" (some respC7) 86400000).map
        (fun p => (storedObs 1 p).timestamp)) = some (86400000 + istOffsetMs) ∧
    (86400000 + istOffsetMs : ℤ) ≠ 0 + istOffsetMs := by
  exact ⟨rfl, by decide⟩

/-- Claim C7 (amended): every stored observation's timestamp is the
Collector's clock reading at fetch time shifted by exactly +5.5 hours
(19800000 ms), stored in the offset-aware timestamp column; the instant
`dt` reported by the API is ignored. -/
theorem c7_timestamp_shift (c : String) (resp : Option ApiResponse) (now : ℤ)
    (raw : RawObs) (h : fetchWeatherData c resp now = some raw) (db : DB) :
    raw.timestamp = now ∧
    (insertWeatherData db raw).weather_data
      = db.weather_data ++ [storedObs (db.ident + 1) raw] ∧
    (storedObs (db.ident + 1) raw).timestamp = now + istOffsetMs := by
  have ht : raw.timestamp = now := by
    cases resp with
    | none => exact absurd h (by simp [fetchWeatherData])
    | some r =>
      obtain ⟨dataOpt⟩ := r
      cases dataOpt with
      | none => exact absurd h (by simp [fetchWeatherData])
      | some dd =>
        obtain ⟨dt, mainOpt, weatherOpt⟩ := dd
        cases mainOpt with
        | none => exact absurd h (by simp [fetchWeatherData])
        | some m =>
          cases weatherOpt with
          | none => exact absurd h (by simp [fetchWeatherData])
          | some ws =>
            simp only [fetchWeatherData] at h
            rw [← Option.some.inj h]
  refine ⟨ht, rfl, ?_⟩
  show raw.timestamp + istOffsetMs = now + istOffsetMs
  rw [ht]

/-- Claim C7 witness: the fetch of `respC7` at clock 86400000 stores
timestamp 86400000 + 5.5h. -/
theorem c7_witness :
    fetchWeatherData "Delhi" (some respC7) 86400000 = some rawC7 ∧
    (rawC7.timestamp = 86400000 ∧
     (insertWeatherData dbEmpty rawC7).weather_data
       = dbEmpty.weather_data ++ [storedObs (dbEmpty.ident + 1) rawC7] ∧
     (storedObs (dbEmpty.ident + 1) rawC7).timestamp = 86400000 + istOffsetMs) :=
  ⟨rfl, c7_timestamp_shift "Delhi" (some respC7) 86400000 rawC7 rfl dbEmpty⟩

/-- Claim C8: when some per-city fetches fail but at least one succeeds, the
invocation returns successfully (no raise), every successfully fetched
observation is inserted, and exactly the valid results are inserted (the
failed fetches contribute nothing). -/
theorem c8_fetch_failure_isolation (k : String)
    (responses : List (String × Option ApiResponse)) (now : ℤ) (db : DB)
    (h : ∃ cr ∈ responses, fetchWeatherData cr.1 cr.2 now ≠ none) :
    ∃ db', weatherTrigger (some k) responses now db = Except.ok db' ∧
      db'.weather_data.length = db.weather_data.length
        + ((responses.map (fun cr => fetchWeatherData cr.1 cr.2 now)).filterMap id).length ∧
      ∀ cr ∈ responses, ∀ raw, fetchWeatherData cr.1 cr.2 now = some raw →
        ∃ i : ℤ, storedObs i raw ∈ db'.weather_data := by
  obtain ⟨cr, hcr, hne⟩ := h
  obtain ⟨raw0, hraw0⟩ := Option.ne_none_iff_exists'.mp hne
  have hmem0 : raw0 ∈ (responses.map (fun cr => fetchWeatherData cr.1 cr.2 now)).filterMap id := by
    rw [List.mem_filterMap]
    exact ⟨some raw0, List.mem_map.mpr ⟨cr, hcr, hraw0⟩, rfl⟩
  have hvne : ((responses.map (fun cr => fetchWeatherData cr.1 cr.2 now)).filterMap id).isEmpty
      = false := by
    cases hval : (responses.map (fun cr => fetchWeatherData cr.1 cr.2 now)).filterMap id with
    | nil => rw [hval] at hmem0; cases hmem0
    | cons a t => rfl
  refine ⟨((responses.map (fun cr => fetchWeatherData cr.1 cr.2 now)).filterMap id).foldl
      insertWeatherData db, ?_, length_foldl_insert _ db, ?_⟩
  · show (if ((responses.map (fun cr => fetchWeatherData cr.1 cr.2 now)).filterMap id).isEmpty
        = true then Except.ok db
      else Except.ok (((responses.map (fun cr => fetchWeatherData cr.1 cr.2 now)).filterMap
        id).foldl insertWeatherData db)) = _
    rw [hvne]
    simp
  · intro cr' hcr' raw hraw
    have hmem : raw ∈ (responses.map (fun cr => fetchWeatherData cr.1 cr.2 now)).filterMap id := by
      rw [List.mem_filterMap]
      exact ⟨some raw, List.mem_map.mpr ⟨cr', hcr', hraw⟩, rfl⟩
    exact exists_stored_of_mem _ db raw hmem

/-- Claim C8 witness: six cities, two failed fetches (a timeout and a
payload missing `main`), four successes. -/
theorem c8_witness :
    (∃ cr ∈ responsesC8, fetchWeatherData cr.1 cr.2 3 ≠ none) ∧
    ∃ db', weatherTrigger (some "key") responsesC8 3 dbEmpty = Except.ok db' ∧
      db'.weather_data.length = dbEmpty.weather_data.length
        + ((responsesC8.map (fun cr => fetchWeatherData cr.1 cr.2 3)).filterMap id).length ∧
      ∀ cr ∈ responsesC8, ∀ raw, fetchWeatherData cr.1 cr.2 3 = some raw →
        ∃ i : ℤ, storedObs i raw ∈ db'.weather_data :=
  ⟨by decide, c8_fetch_failure_isolation "key" responsesC8 3 dbEmpty (by decide)⟩

/-- Claim C9 counterexample: a payload whose `main` is present but whose
`weather` array is absent is NOT turned into an 'Unknown' observation — the
indexing `response.data.weather[0]` raises, the error is caught, and the
city is dropped (the fetch yields `null`). -/
theorem c9_counterexample :
    fetchWeatherData "Delhi"
      (some { data := some { dt := 0
                             main := some { temp := 25, feels_like := 26, pressure := 1003, humidity := 40 }
                             weather := none } }) 0 = none := rfl

/-- Claim C9 (amended): a payload with `main` present and an EMPTY `weather`
array is not treated as malformed — it yields an observation labelled
"Unknown", inserted like any other; but a payload whose `weather` array is
ABSENT raises at the indexing and is dropped as a per-city failure. -/
theorem c9_unknown_weather (c : String) (dt : ℤ) (m : MainData) (now : ℤ) (db : DB) :
    fetchWeatherData c
        (some { data := some { dt := dt, main := some m, weather := some [] } }) now
      = some { city := c, temperature := m.temp, feels_like := m.feels_like,
               pressure := m.pressure, humidity := m.humidity,
               weather := "Unknown", timestamp := now } ∧
    (insertWeatherData db
        { city := c, temperature := m.temp, feels_like := m.feels_like,
          pressure := m.pressure, humidity := m.humidity,
          weather := "Unknown", timestamp := now }).weather_data
      = db.weather_data ++
        [storedObs (db.ident + 1)
          { city := c, temperature := m.temp, feels_like := m.feels_like,
            pressure := m.pressure, humidity := m.humidity,
            weather := "Unknown", timestamp := now }] ∧
    fetchWeatherData c
        (some { data := some { dt := dt, main := some m, weather := none } }) now
      = none :=
  ⟨rfl, rfl, rfl⟩

/-- Claim C10: the stored pressure and humidity are the integer part of the
fetched values (their fractional part is not preserved), temperature and
feels-like are stored exactly; hence the Aggregator's avg_pressure and
avg_humidity are (rounded) means of integer-valued rows — an integer sum
divided by the row count. -/
theorem c10_integer_columns (db : DB) (p : RawObs) (tbl : List Obs) (d : ℤ) (c : String) :
    (storedObs (db.ident + 1) p).pressure = ⌊p.pressure⌋ ∧
    (storedObs (db.ident + 1) p).humidity = ⌊p.humidity⌋ ∧
    (((storedObs (db.ident + 1) p).pressure : ℚ) ≤ p.pressure ∧
      p.pressure < ((storedObs (db.ident + 1) p).pressure : ℚ) + 1) ∧
    (((storedObs (db.ident + 1) p).humidity : ℚ) ≤ p.humidity ∧
      p.humidity < ((storedObs (db.ident + 1) p).humidity : ℚ) + 1) ∧
    (storedObs (db.ident + 1) p).temperature = p.temperature ∧
    (storedObs (db.ident + 1) p).feels_like = p.feels_like ∧
    (∃ sp : ℤ, (summarize tbl d c).avg_pressure
        = round2 ((sp : ℚ) / ((obsFor tbl d c).length : ℚ))) ∧
    (∃ sh : ℤ, (summarize tbl d c).avg_humidity
        = round2 ((sh : ℚ) / ((obsFor tbl d c).length : ℚ))) := by
  refine ⟨rfl, rfl, ⟨Int.floor_le _, Int.lt_floor_add_one _⟩,
      ⟨Int.floor_le _, Int.lt_floor_add_one _⟩, rfl, rfl, ?_, ?_⟩
  · refine ⟨((obsFor tbl d c).map (fun o => o.pressure)).sum, ?_⟩
    show round2 (aggAvg ((obsFor tbl d c).map (fun o => (o.pressure : ℚ)))) = _
    rw [aggAvg, aggSum_eq_sum, List.length_map,
      sum_map_intCast (obsFor tbl d c) (fun o => o.pressure)]
  · refine ⟨((obsFor tbl d c).map (fun o => o.humidity)).sum, ?_⟩
    show round2 (aggAvg ((obsFor tbl d c).map (fun o => (o.humidity : ℚ)))) = _
    rw [aggAvg, aggSum_eq_sum, List.length_map,
      sum_map_intCast (obsFor tbl d c) (fun o => o.humidity)]

end WeatherUpdate
